import Mathlib

/-!
Verification of the SentinelAI match pipeline and lifecycle engine.

Shallow embedding of the Python sources:
  backend/ip_service/services/database.py   (save_image, save_ip_match)
  backend/scrapping/internal_matching.py    (find_internal_matches, save_internal_matches)
  backend/scrapping/pipeline.py             (run_pipeline)
  backend/scrapping/scrapper.py             (fetch_images, as an outcome oracle)
  backend/scrapping/embedder.py             (cosine_similarity)
  backend/ip_service/services/dmca_service.py (create_dmca_report)
  backend/ip_service/routes/ip_routes.py    (confirm_or_decline_match)

Database rows are Lean structures, the database is lists of rows, SQLAlchemy
session commit/rollback becomes explicit state passing (rollback returns the
pre-transaction state), and external effects (S3, SerpAPI, the DB driver,
datetimes, uuid4) are oracle parameters.  Similarity scores are rationals
except in the cosine-similarity development, which is over the reals.
-/

namespace SentinelAI

/-- Python truthiness of an optional string: None and the empty string are falsy. -/
def strTruthy : Option String → Bool
  | none => false
  | some s => s ≠ ""

/-- Python truthiness of an optional numeral: None and 0 are falsy. -/
def natTruthy : Option Nat → Bool
  | none => false
  | some n => n ≠ 0

/-- Python truthiness of an optional float: None and 0.0 are falsy. -/
def ratTruthy : Option ℚ → Bool
  | none => false
  | some q => q ≠ 0

/-- Python `a or b` on two optional strings (used for dict.get fallbacks). -/
def pyOr (a b : Option String) : Option String :=
  if strTruthy a then a else b

/-- Python `a or b` where the fallback is a plain string, returning a string. -/
def pyOrD (a : Option String) (b : String) : String :=
  match a with
  | none => b
  | some s => if s = "" then b else s

/-- Python `a or b` on optional numerals. -/
def pyOrNat (a b : Option Nat) : Option Nat :=
  if natTruthy a then a else b

/-- Python `a or b` where a is an optional float and b a float default. -/
def pyOrRat (a : Option ℚ) (b : ℚ) : ℚ :=
  match a with
  | none => b
  | some q => if q = 0 then b else q

/-- A scraped candidate record: the dictionary shape produced by
scrapper.py and consumed by pipeline.py and dmca_service.py.
Every key the modelled code reads is a field; a missing key is none. -/
structure Payload where
  page_url : Option String := none
  url : Option String := none
  content : Option String := none
  suspected_image_url : Option String := none
  thumbnail_url : Option String := none
  thumbnail : Option String := none
  source_domain : Option String := none
  source_name : Option String := none
  page_title : Option String := none
  title : Option String := none
  caption : Option String := none
  is_product : Option Bool := none
  product_price : Option String := none
  product_currency : Option String := none
  marketplace : Option String := none
  similarity_score : Option ℚ := none
  similarity : Option ℚ := none
  text_similarity : Option ℚ := none
  serp_position : Option Nat := none
  position : Option Nat := none
  page_description : Option String := none
  page_snippet : Option String := none
  page_author : Option String := none
  page_tags : Option (List String) := none
  source_logo : Option String := none
  best_guess : Option String := none
  image_width : Option Nat := none
  image_height : Option Nat := none
  image_format : Option String := none
  raw_serp_data : Option String := none
  deriving DecidableEq, Repr

/-- Match lifecycle status (ip_models.IpMatches.status). -/
inductive MatchStatus
  | pending
  | confirmed
  | declined
  deriving DecidableEq, Repr

/-- A row of the images table (ip_models.Images); the columns read by the
modelled code. -/
structure ImageRow where
  id : Nat
  user_id : Nat
  image_url : String
  source_page_url : Option String := none
  domain : Option String := none
  status_code : Option Nat := none
  content_type : Option String := none
  file_size_bytes : Option Nat := none
  width : Option Nat := none
  height : Option Nat := none
  page_title : Option String := none
  img_alt : Option String := none
  s3_path : Option String := none
  status : String := "pending"
  deriving DecidableEq, Repr

/-- The metadata dict accepted by save_image. -/
structure ImgMetadata where
  source_page_url : Option String := none
  domain : Option String := none
  status_code : Option Nat := none
  content_type : Option String := none
  file_size_bytes : Option Nat := none
  width : Option Nat := none
  height : Option Nat := none
  page_title : Option String := none
  img_alt : Option String := none
  s3_path : Option String := none
  deriving DecidableEq, Repr

/-- A row of the ip_assets table (ip_models.IpAssets). -/
structure AssetRow where
  id : Nat
  user_id : Nat
  title : String
  description : Option String := none
  asset_type : Option String := none
  file_url : Option String := none
  deriving DecidableEq, Repr

/-- A row of the ip_matches table (ip_models.IpMatches). -/
structure MatchRow where
  id : Nat
  source_image_id : Nat
  matched_asset_id : Nat
  similarity_score : ℚ
  user_confirmed : Option Bool := none
  status : MatchStatus := .pending
  reviewed_at : Option Nat := none
  scraped_data : Option Payload := none
  created_at : Nat := 0
  deriving DecidableEq, Repr

/-- The raw_serp_data column of a DMCA report: either the payload's own
raw_serp_data entry or, as fallback, the whole scraped payload. -/
inductive RawData
  | fromKey (s : String)
  | wholePayload (p : Payload)
  deriving DecidableEq, Repr

/-- A row of the dmca_reports table (ip_models.DmcaReports); the columns
written by create_dmca_report. -/
structure DmcaReport where
  id : Nat
  user_id : Nat
  match_id : Nat
  original_asset_id : Option Nat
  infringement_group_id : String
  infringing_url : String
  suspected_image_url : Option String
  original_image_url : Option String
  thumbnail_url : Option String
  screenshot_url : String
  source_domain : Option String
  source_name : Option String
  page_title : Option String
  is_product : Bool
  product_price : Option String
  product_currency : Option String
  marketplace : Option String
  similarity_score : ℚ
  serp_position : Option Nat
  page_description : Option String
  page_snippet : Option String
  page_author : Option String
  page_tags : Option (List String)
  source_logo : Option String
  best_guess : Option String
  image_width : Option Nat
  image_height : Option Nat
  image_format : Option String
  raw_serp_data : RawData
  image_caption : Option String
  status : String
  created_at : Nat
  updated_at : Nat
  detected_at : Nat
  deriving DecidableEq, Repr

/-- The relational state touched by the modelled code, with fresh-id
counters standing in for autoincrement primary keys. -/
structure SentinelDB where
  images : List ImageRow := []
  assets : List AssetRow := []
  ip_matches : List MatchRow := []
  reports : List DmcaReport := []
  notifications : List (Nat × String) := []
  nextImageId : Nat := 1
  nextAssetId : Nat := 1
  nextMatchId : Nat := 1
  nextReportId : Nat := 1
  deriving DecidableEq, Repr

/-- Outcome of a DB driver commit attempt, an oracle for exception paths. -/
inductive DbOutcome
  | commit
  | integrityError (msg : String)
  | failure (msg : String)
  deriving DecidableEq, Repr

/-- Result of database.save_image: a persisted Images row or a transient
in-memory fallback entry (TransientImageEntry, carrying a uuid string id). -/
inductive SaveImageResult
  | saved (row : ImageRow)
  | transient (tid : String)
  deriving DecidableEq, Repr

/-- database.save_image: require a truthy user_id, return the first
existing row with the same image_url unchanged, otherwise insert a fresh
row; an IntegrityError propagates, any other DB failure falls back to a
transient entry with the session rolled back. -/
def save_image (outcome : DbOutcome) (freshTid : String) (db : SentinelDB)
    (image_url : String) (metadata : ImgMetadata) (user_id : Option Nat) :
    Except String (SentinelDB × SaveImageResult) :=
  if ¬ natTruthy user_id then
    .error "user_id is required to save an image"
  else
    match db.images.find? (fun r => r.image_url == image_url) with
    | some existing => .ok (db, .saved existing)
    | none =>
      match outcome with
      | .commit =>
        let row : ImageRow :=
          { id := db.nextImageId
            user_id := user_id.getD 0
            image_url := image_url
            source_page_url := metadata.source_page_url
            domain := metadata.domain
            status_code := metadata.status_code
            content_type := metadata.content_type
            file_size_bytes := metadata.file_size_bytes
            width := metadata.width
            height := metadata.height
            page_title := metadata.page_title
            img_alt := metadata.img_alt
            s3_path := metadata.s3_path
            status := "pending" }
        .ok ({ db with images := db.images ++ [row],
                       nextImageId := db.nextImageId + 1 }, .saved row)
      | .integrityError msg => .error msg
      | .failure _ => .ok (db, .transient freshTid)

/-- database.save_ip_match: unconditionally insert a new ip_matches row;
there is no lookup for an existing (source, matched) pair. -/
def save_ip_match (now : Nat) (db : SentinelDB) (source_image_id : Nat)
    (matched_asset_id : Nat) (similarity_score : ℚ)
    (scraped_data : Option Payload) : SentinelDB × MatchRow :=
  let row : MatchRow :=
    { id := db.nextMatchId
      source_image_id := source_image_id
      matched_asset_id := matched_asset_id
      similarity_score := similarity_score
      user_confirmed := none
      status := .pending
      reviewed_at := none
      scraped_data := scraped_data
      created_at := now }
  ({ db with ip_matches := db.ip_matches ++ [row],
             nextMatchId := db.nextMatchId + 1 }, row)

/-- database.save_ip_asset: insert a fresh ip_assets row. -/
def save_ip_asset (db : SentinelDB) (user_id : Nat) (title : String)
    (description : Option String) (asset_type : Option String)
    (file_url : Option String) : SentinelDB × AssetRow :=
  let row : AssetRow :=
    { id := db.nextAssetId
      user_id := user_id
      title := title
      description := description
      asset_type := asset_type
      file_url := file_url }
  ({ db with assets := db.assets ++ [row],
             nextAssetId := db.nextAssetId + 1 }, row)

/-- One scored internal candidate produced by find_internal_matches. -/
structure InternalMatch where
  matched_id : Nat
  similarity_score : ℚ
  deriving DecidableEq, Repr

/-- Does some ip_matches row with the given (source, matched) pair exist? -/
def pairExists (rows : List MatchRow) (source_id matched_id : Nat) : Bool :=
  rows.any (fun r => r.source_image_id == source_id && r.matched_asset_id == matched_id)

/-- One loop iteration of internal_matching.save_internal_matches: skip
the candidate when a row with the same (source, matched) pair already
exists, otherwise add a fresh pending ip_matches row. -/
def internalStep (now input_image_id : Nat) (acc : SentinelDB)
    (m : InternalMatch) : SentinelDB :=
  if pairExists acc.ip_matches input_image_id m.matched_id then acc
  else
    let row : MatchRow :=
      { id := acc.nextMatchId
        source_image_id := input_image_id
        matched_asset_id := m.matched_id
        similarity_score := m.similarity_score
        user_confirmed := none
        status := .pending
        reviewed_at := none
        scraped_data := none
        created_at := now }
    { acc with ip_matches := acc.ip_matches ++ [row],
               nextMatchId := acc.nextMatchId + 1 }

/-- internal_matching.save_internal_matches: insert each internal match
unless a row with the same (source, matched) pair already exists (with
autoflush the lookup also sees rows added earlier in the same call). -/
def save_internal_matches (now : Nat) (db : SentinelDB) (input_image_id : Nat)
    (internal_matches : List InternalMatch) : SentinelDB :=
  internal_matches.foldl (internalStep now input_image_id) db

/-- internal_matching.INTERNAL_SIMILARITY_THRESHOLD. -/
def INTERNAL_SIMILARITY_THRESHOLD : ℚ := 1/5

/-- The guard of find_internal_matches on one scored candidate:
Python `if sim and sim >= INTERNAL_SIMILARITY_THRESHOLD` (0.0 is falsy). -/
def internalQualifies (sim : ℚ) : Bool :=
  decide (sim ≠ 0) && decide (INTERNAL_SIMILARITY_THRESHOLD ≤ sim)

/-- Number of ip_matches rows with the given (source, matched) pair. -/
def pairCount (rows : List MatchRow) (source_id matched_id : Nat) : Nat :=
  (rows.filter
    (fun r => r.source_image_id == source_id && r.matched_asset_id == matched_id)).length

/-- dmca_service.create_dmca_report field extraction: build the DmcaReports
row from the match, the looked-up source image and matched asset, and the
scraped payload, with every Python dict.get fallback modelled. -/
def buildDmcaReport (db : SentinelDB) (user_id match_id : Nat) (m : MatchRow)
    (scraped : Payload) (gid : String) (now : Nat) : DmcaReport :=
  let source_image := db.images.find? (fun r => r.id == m.source_image_id)
  let matched_asset := db.assets.find? (fun a => a.id == m.matched_asset_id)
  { id := db.nextReportId
    user_id := user_id
    match_id := match_id
    original_asset_id := matched_asset.map (fun a => a.id)
    infringement_group_id := gid
    infringing_url := pyOrD scraped.page_url (scraped.url.getD "Unknown")
    suspected_image_url := pyOr scraped.suspected_image_url scraped.url
    original_image_url := source_image.bind (fun r => r.s3_path)
    thumbnail_url := pyOr scraped.thumbnail_url scraped.thumbnail
    screenshot_url :=
      "https://s3.amazonaws.com/sentinelai-dmca/screenshots/" ++ toString match_id ++ ".jpg"
    source_domain := scraped.source_domain
    source_name := scraped.source_name
    page_title := pyOr scraped.page_title scraped.title
    is_product := scraped.is_product.getD false
    product_price := scraped.product_price
    product_currency := scraped.product_currency
    marketplace := scraped.marketplace
    similarity_score := pyOrRat scraped.similarity_score (scraped.similarity.getD 0)
    serp_position := pyOrNat scraped.serp_position scraped.position
    page_description := scraped.page_description
    page_snippet := scraped.page_snippet
    page_author := scraped.page_author
    page_tags := scraped.page_tags
    source_logo := scraped.source_logo
    best_guess := scraped.best_guess
    image_width := scraped.image_width
    image_height := scraped.image_height
    image_format := scraped.image_format
    raw_serp_data :=
      match scraped.raw_serp_data with
      | some s => if s = "" then RawData.wholePayload scraped else RawData.fromKey s
      | none => RawData.wholePayload scraped
    image_caption :=
      match matched_asset with
      | some a => pyOr scraped.caption (some a.title)
      | none => none
    status := "pending"
    created_at := now
    updated_at := now
    detected_at := now }

/-- dmca_service.create_dmca_report: verify the match exists, generate a
fresh uuid group id when none (or a falsy one) is supplied, build the
report row, and commit it; a failed commit rolls the session back and the
exception propagates.  freshUuid is the uuid4 oracle, commitOk the DB
driver oracle. -/
def create_dmca_report (commitOk : Bool) (freshUuid : String) (now : Nat)
    (db : SentinelDB) (user_id match_id : Nat) (scraped_data : Payload)
    (group_id : Option String) : Except String (SentinelDB × DmcaReport) :=
  match db.ip_matches.find? (fun r => r.id == match_id) with
  | none => .error ("Match not found: " ++ toString match_id)
  | some m =>
    let gid :=
      match group_id with
      | some s => if s = "" then freshUuid else s
      | none => freshUuid
    let report := buildDmcaReport db user_id match_id m scraped_data gid now
    if commitOk then
      .ok ({ db with reports := db.reports ++ [report],
                     nextReportId := db.nextReportId + 1 }, report)
    else
      .error "Failed to create DMCA report"

/-- A review request action (ip_routes.ReviewMatchRequest, after the
route's validation that the string is confirm or decline). -/
inductive ReviewAction
  | confirm
  | decline
  deriving DecidableEq, Repr

/-- The observable outcome of the confirm-or-decline route. -/
inductive ReviewResult
  | httpError (code : Nat) (detail : String)
  | alreadyReviewed (status : MatchStatus)
  | confirmedOk (dmca_report_id : Nat)
  | declinedOk
  deriving DecidableEq, Repr

/-- Does the current user own the source image of the match
(ip_routes ownership query on Images)? -/
def ownsSourceImage (images : List ImageRow) (image_id user_id : Nat) : Bool :=
  images.any (fun r => r.id == image_id && r.user_id == user_id)

/-- Number of dmca_reports rows for the given match id. -/
def dossierCount (reports : List DmcaReport) (match_id : Nat) : Nat :=
  (reports.filter (fun r => r.match_id == match_id)).length

/-- ip_routes.confirm_or_decline_match: look up the match (404), check
ownership of its source image (403), return the existing status when the
match is no longer pending, otherwise set status, reviewed_at and the
legacy user_confirmed flag and either (confirm) call create_dmca_report
and commit, rolling everything back if dossier creation fails, or
(decline) just commit.  commitOk is the dossier-creation outcome oracle,
freshUuid the uuid4 oracle and now the clock. -/
def confirm_or_decline_match (commitOk : Bool) (freshUuid : String) (now : Nat)
    (db : SentinelDB) (match_id : Nat) (action : ReviewAction)
    (current_user : Nat) : SentinelDB × ReviewResult :=
  match db.ip_matches.find? (fun r => r.id == match_id) with
  | none => (db, .httpError 404 "Match not found")
  | some m =>
    if ¬ ownsSourceImage db.images m.source_image_id current_user then
      (db, .httpError 403 "Access denied")
    else if m.status ≠ .pending then
      (db, .alreadyReviewed m.status)
    else
      let m' : MatchRow :=
        { m with
          status := match action with
                    | .confirm => .confirmed
                    | .decline => .declined
          reviewed_at := some now
          user_confirmed := some (action == .confirm) }
      let tentative :=
        { db with ip_matches :=
            db.ip_matches.map (fun r => if r.id == match_id then m' else r) }
      match action with
      | .confirm =>
        match create_dmca_report commitOk freshUuid now tentative current_user
                match_id (m.scraped_data.getD {}) none with
        | .ok (db', report) => (db', .confirmedOk report.id)
        | .error e =>
          (db, .httpError 500 ("Match confirmed but DMCA generation failed: " ++ e))
      | .decline => (tentative, .declinedOk)

/-- Per-candidate external-effect outcomes for one loop iteration of
run_pipeline step 4 (image download, S3 upload of the matched image, DB
commits for the asset, the match and the notification). -/
structure IoFlags where
  downloadOk : Bool := true
  uploadOk : Bool := true
  assetSaveOk : Bool := true
  matchSaveOk : Bool := true
  notifyOk : Bool := true
  deriving DecidableEq, Repr

/-- Outcome of scrapper.fetch_images for one run: either an HTTPException
(provider failure: timeout, non-200, malformed response) or the processed
candidate list, each candidate paired with its step-4 effect oracle. -/
inductive FetchOutcome
  | fetchError (detail : String)
  | fetched (results : List (Payload × IoFlags))
  deriving DecidableEq, Repr

/-- One entry of the matches list in the run_pipeline result dict. -/
structure MatchSummary where
  id : Nat
  asset_id : Nat
  url : String
  caption : String
  image_similarity : ℚ
  text_similarity : ℚ
  page_url : String
  deriving DecidableEq, Repr

/-- The run_pipeline result dict: success flag, the saved image id (an
integer row id, or the transient entry's uuid string), match summaries and
the optional error message. -/
structure PipelineResult where
  success : Bool
  image_id : Option (Nat ⊕ String)
  match_list : List MatchSummary
  error : Option String
  deriving DecidableEq, Repr

/-- The S3 object name run_pipeline gives the downloaded copy of candidate
number idx (upload_to_s3 with original_filename match_imageid_idx.jpg). -/
def matchUploadUrl (image_id_name : String) (idx : Nat) : String :=
  "uploads/crawled/match_" ++ image_id_name ++ "_" ++ toString idx ++ ".jpg"

/-- One iteration of run_pipeline step 4 on candidate (idx, sim_image):
skip candidates without a truthy url, failed downloads, failed uploads and
failed asset or match inserts (each failure only skips this candidate);
persist an IpAssets row, then an IpMatches row via save_ip_match with the
whole payload as scraped_data, then a best-effort notification.
sourceIdValid records whether the image id from step 2 is a real integer
row id; with a transient (uuid string) id the match insert fails. -/
def processOneCandidate (now user_id image_id : Nat) (image_id_name : String)
    (sourceIdValid : Bool) (db : SentinelDB) (idx : Nat) (c : Payload)
    (io : IoFlags) : SentinelDB × Option MatchSummary :=
  if ¬ strTruthy c.url then (db, none)
  else if ¬ io.downloadOk then (db, none)
  else if ¬ io.uploadOk then (db, none)
  else if ¬ io.assetSaveOk then (db, none)
  else
    let match_url := matchUploadUrl image_id_name idx
    let (db1, asset) := save_ip_asset db user_id (c.title.getD "Matched Image")
      (some (c.caption.getD "")) (some "image") (some match_url)
    if ¬ (io.matchSaveOk && sourceIdValid) then (db1, none)
    else
      let similarity := c.similarity.getD 0
      let (db2, row) := save_ip_match now db1 image_id asset.id similarity (some c)
      let db3 :=
        if io.notifyOk then
          { db2 with notifications := db2.notifications ++
              [(user_id, "Potential IP match found for image ID " ++ image_id_name)] }
        else db2
      (db3, some
        { id := row.id
          asset_id := asset.id
          url := match_url
          caption := c.caption.getD ""
          image_similarity := similarity
          text_similarity := c.text_similarity.getD 0
          page_url := c.page_url.getD "" })

/-- run_pipeline step 4 over the whole candidate list. -/
def processCandidates (now user_id image_id : Nat) (image_id_name : String)
    (sourceIdValid : Bool) (db : SentinelDB)
    (results : List (Payload × IoFlags)) : SentinelDB × List MatchSummary :=
  (results.enum.foldl
    (fun acc entry =>
      let (db0, summaries) := acc
      let (idx, (c, io)) := entry
      match processOneCandidate now user_id image_id image_id_name
              sourceIdValid db0 idx c io with
      | (db1, some s) => (db1, summaries ++ [s])
      | (db1, none) => (db1, summaries))
    (db, []))

/-- scrapping/pipeline.run_pipeline: upload the original to S3, save the
Images row, fetch similar images from the single SerpAPI provider, and
persist one asset + match per processed candidate.  An upload, image-save
or provider failure aborts the run with success false; an empty candidate
list and per-candidate failures do not.  uploadOk models step 1,
saveOutcome and freshTid model save_image's driver outcome, keyOk the
SERP_API_KEY configuration check and fetch the provider call. -/
def run_pipeline (uploadOk : Bool) (public_url : String)
    (saveOutcome : DbOutcome) (freshTid : String) (keyOk : Bool)
    (fetch : FetchOutcome) (user_id now : Nat) (db : SentinelDB) :
    SentinelDB × PipelineResult :=
  if ¬ uploadOk then
    (db, { success := false, image_id := none, match_list := [],
           error := some "Failed to upload image" })
  else
    match save_image saveOutcome freshTid db public_url
            { s3_path := some public_url } (some user_id) with
    | .error e =>
      (db, { success := false, image_id := none, match_list := [],
             error := some ("Failed to save image to database: " ++ e) })
    | .ok (db1, saveResult) =>
      let image_ref : Nat ⊕ String :=
        match saveResult with
        | .saved row => .inl row.id
        | .transient tid => .inr tid
      let image_id : Nat := match saveResult with
        | .saved row => row.id
        | .transient _ => 0
      let image_id_name : String := match saveResult with
        | .saved row => toString row.id
        | .transient tid => tid
      let sourceIdValid : Bool := match saveResult with
        | .saved _ => true
        | .transient _ => false
      if ¬ keyOk then
        (db1, { success := false, image_id := some image_ref, match_list := [],
                error := some "SERP_API_KEY not configured" })
      else
        match fetch with
        | .fetchError d =>
          (db1, { success := false, image_id := some image_ref, match_list := [],
                  error := some ("Failed to fetch similar images: " ++ d) })
        | .fetched results =>
          if results.isEmpty then
            (db1, { success := true, image_id := some image_ref, match_list := [],
                    error := none })
          else
            let (db2, summaries) := processCandidates now user_id image_id
              image_id_name sourceIdValid db1 results
            (db2, { success := true, image_id := some image_ref,
                    match_list := summaries, error := none })

/-- torch.dot on n-dimensional real vectors. -/
def dotProduct {n : ℕ} (a b : Fin n → ℝ) : ℝ := ∑ i, a i * b i

/-- tensor.norm(): the L2 norm. -/
noncomputable def l2norm {n : ℕ} (a : Fin n → ℝ) : ℝ :=
  Real.sqrt (∑ i, a i ^ 2)

/-- embedder.cosine_similarity: divide each vector by its own norm and
return the dot product of the results.  No clamping is applied. -/
noncomputable def cosine_similarity {n : ℕ} (a b : Fin n → ℝ) : ℝ :=
  dotProduct (fun i => a i / l2norm a) (fun i => b i / l2norm b)

theorem cosine_similarity_eq_div {n : ℕ} (a b : Fin n → ℝ) :
    cosine_similarity a b = dotProduct a b / (l2norm a * l2norm b) :=
  (Finset.sum_congr rfl fun i _ =>
    div_mul_div_comm (a i) (l2norm a) (b i) (l2norm b)).trans
    (Finset.sum_div Finset.univ (fun i => a i * b i) (l2norm a * l2norm b)).symm

theorem l2norm_nonneg {n : ℕ} (a : Fin n → ℝ) : 0 ≤ l2norm a :=
  Real.sqrt_nonneg _

theorem abs_dotProduct_le {n : ℕ} (a b : Fin n → ℝ) :
    dotProduct a b ≤ l2norm a * l2norm b ∧ -(l2norm a * l2norm b) ≤ dotProduct a b := by
  constructor
  · exact Real.sum_mul_le_sqrt_mul_sqrt Finset.univ a b
  · have h := Real.sum_mul_le_sqrt_mul_sqrt Finset.univ (fun i => -a i) b
    have hsq : (∑ i, (-a i) ^ 2) = ∑ i, a i ^ 2 := by
      exact Finset.sum_congr rfl fun i _ => by ring
    have hsum : (∑ i, (-a i) * b i) = -(∑ i, a i * b i) := by
      rw [← Finset.sum_neg_distrib]
      exact Finset.sum_congr rfl fun i _ => by ring
    rw [hsq, hsum] at h
    have := neg_le_neg h
    simpa [dotProduct, l2norm] using this

/-- Helper: a found row satisfies the find? predicate on its id. -/
theorem find?_id_eq {α : Type} (idOf : α → Nat) (l : List α) (i : Nat) (m : α)
    (h : l.find? (fun r => idOf r == i) = some m) : idOf m = i := by
  have := List.find?_some h
  simpa using this

/-- Helper: mapping a conditional replacement over a list rewrites the row
that find? locates, provided the replacement satisfies the predicate. -/
theorem find?_map_update {α : Type} (p : α → Bool) (l : List α) (m m' : α)
    (h : l.find? p = some m) (hm' : p m' = true) :
    (l.map (fun r => if p r then m' else r)).find? p = some m' := by
  induction l with
  | nil => simp at h
  | cons hd tl ih =>
    cases hp : p hd with
    | true => simp [List.find?_cons, hp, hm']
    | false =>
      simp only [List.find?_cons, hp] at h
      simp [List.find?_cons, hp, ih h]

theorem pairExists_internalStep_self (now i : Nat) (db : SentinelDB)
    (m : InternalMatch) :
    pairExists (internalStep now i db m).ip_matches i m.matched_id = true := by
  unfold internalStep
  by_cases h : pairExists db.ip_matches i m.matched_id = true
  · simp [h]
  · simp only [h]
    simp [pairExists, List.any_append]

theorem pairExists_internalStep_mono (now i t : Nat) (db : SentinelDB)
    (m : InternalMatch) (h : pairExists db.ip_matches i t = true) :
    pairExists (internalStep now i db m).ip_matches i t = true := by
  unfold internalStep
  by_cases hc : pairExists db.ip_matches i m.matched_id = true
  · simpa [hc] using h
  · simp only [hc]
    unfold pairExists at h ⊢
    simp [List.any_append, h]

theorem pairExists_fold_mono (now i t : Nat) (ms : List InternalMatch) :
    ∀ db : SentinelDB, pairExists db.ip_matches i t = true →
      pairExists (save_internal_matches now db i ms).ip_matches i t = true := by
  induction ms with
  | nil => intro db h; simpa [save_internal_matches] using h
  | cons hd tl ih =>
    intro db h
    show pairExists
      (save_internal_matches now (internalStep now i db hd) i tl).ip_matches i t = true
    exact ih _ (pairExists_internalStep_mono now i t db hd h)

theorem pairExists_fold_mem (now i : Nat) (ms : List InternalMatch) :
    ∀ db : SentinelDB, ∀ m ∈ ms,
      pairExists (save_internal_matches now db i ms).ip_matches i m.matched_id = true := by
  induction ms with
  | nil => intro db m hm; simp at hm
  | cons hd tl ih =>
    intro db m hm
    rcases List.mem_cons.mp hm with h | h
    · subst h
      show pairExists
        (save_internal_matches now (internalStep now i db m) i tl).ip_matches i m.matched_id = true
      exact pairExists_fold_mono now i m.matched_id tl _
        (pairExists_internalStep_self now i db m)
    · exact ih _ m h

theorem save_internal_matches_noop (now i : Nat) (ms : List InternalMatch) :
    ∀ db : SentinelDB,
      (∀ m ∈ ms, pairExists db.ip_matches i m.matched_id = true) →
      save_internal_matches now db i ms = db := by
  induction ms with
  | nil => intro db _; rfl
  | cons hd tl ih =>
    intro db h
    have hhd := h hd (List.mem_cons_self hd tl)
    have hstep : internalStep now i db hd = db := by
      unfold internalStep; simp [hhd]
    show save_internal_matches now (internalStep now i db hd) i tl = db
    rw [hstep]
    exact ih db (fun m hm => h m (List.mem_cons_of_mem hd hm))

/-- find?_map_update specialised to id-keyed match rows. -/
theorem find?_update_match (l : List MatchRow) (i : Nat) (m m' : MatchRow)
    (h : l.find? (fun r => r.id == i) = some m) (hid : m'.id = i) :
    (l.map (fun r => if r.id == i then m' else r)).find?
      (fun r => r.id == i) = some m' :=
  find?_map_update (fun r => r.id == i) l m m' h (by simpa using hid)

/-- A user-7-owned source image used by the concrete scenarios below. -/
def sampleImage : ImageRow :=
  { id := 1, user_id := 7, image_url := "https://s3.example/orig.jpg",
    s3_path := some "https://s3.example/orig.jpg" }

/-- The asset row the sample match points at. -/
def sampleAsset : AssetRow :=
  { id := 2, user_id := 7, title := "Matched Image" }

/-- The stored candidate payload of the sample match. -/
def samplePayload : Payload :=
  { page_url := some "https://infringer.example/page",
    url := some "https://infringer.example/img.jpg",
    title := some "Stolen art", similarity := some (9/10) }

/-- A pending match between the sample image and the sample asset. -/
def sampleMatch : MatchRow :=
  { id := 10, source_image_id := 1, matched_asset_id := 2,
    similarity_score := 9/10, scraped_data := some samplePayload }

/-- The concrete database the review scenarios run against. -/
def sampleDB : SentinelDB :=
  { images := [sampleImage], assets := [sampleAsset],
    ip_matches := [sampleMatch],
    nextImageId := 2, nextAssetId := 3, nextMatchId := 11 }

/-- The external persistence step applied once to pair (1, 1). -/
def c1_once : SentinelDB := (save_ip_match 0 {} 1 1 (9/10) none).1

/-- The external persistence step applied a second time to pair (1, 1). -/
def c1_twice : SentinelDB := (save_ip_match 0 c1_once 1 1 (9/10) none).1

/-- C1 counterexample: database.save_ip_match performs no uniqueness
lookup, so persisting the very same (source image, matched asset) pair a
second time leaves two ip_matches rows for the pair, violating the claimed
at-most-one-Match-per-pair invariant. -/
theorem save_ip_match_duplicates_pair :
    pairCount c1_once.ip_matches 1 1 = 1 ∧
    pairCount c1_twice.ip_matches 1 1 = 2 := by
  exact ⟨rfl, rfl⟩

/-- C1 (amended): only the internal-match persistence path is idempotent —
running save_internal_matches a second time against an unchanged candidate
set is a no-op, so that path never creates a duplicate (source, matched)
pair; the external path save_ip_match inserts unconditionally. -/
theorem save_internal_matches_idempotent (now now2 i : Nat) (db : SentinelDB)
    (ms : List InternalMatch) :
    save_internal_matches now2 (save_internal_matches now db i ms) i ms =
      save_internal_matches now db i ms :=
  save_internal_matches_noop now2 i ms _
    (fun m hm => pairExists_fold_mem now i ms db m hm)

/-- C2 (code-bug evaluation): when dossier creation fails during a
confirm, the route's rollback discards the uncommitted status update — the
call returns the 500 error whose own text says the match was confirmed,
yet the database is returned unchanged and the match is still pending. -/
theorem confirm_rollback_on_dossier_failure :
    confirm_or_decline_match false "uuid-1" 100 sampleDB 10 .confirm 7 =
      (sampleDB, .httpError 500
        "Match confirmed but DMCA generation failed: Failed to create DMCA report") ∧
    (sampleDB.ip_matches.find? (fun r => r.id == 10)).map (fun r => r.status) =
      some .pending := by
  exact ⟨rfl, rfl⟩

/-- The row a successful review writes for the reviewed match. -/
def reviewedRow (m : MatchRow) (action : ReviewAction) (now : Nat) : MatchRow :=
  { m with
    status := match action with
              | .confirm => .confirmed
              | .decline => .declined
    reviewed_at := some now
    user_confirmed := some (action == .confirm) }

/-- The database state after a successful confirm with dossier creation. -/
def confirmedDB (db : SentinelDB) (mid uid now : Nat) (u1 : String)
    (m : MatchRow) : SentinelDB :=
  let m' := reviewedRow m .confirm now
  let tdb :=
    { db with ip_matches :=
        db.ip_matches.map (fun (r : MatchRow) => if r.id == mid then m' else r) }
  { tdb with
    reports := tdb.reports ++
      [buildDmcaReport tdb uid mid m' (m.scraped_data.getD {}) u1 now],
    nextReportId := tdb.nextReportId + 1 }

/-- Shape of a successful confirm on a pending, owned match. -/
theorem confirm_success_eq (db : SentinelDB) (mid uid now : Nat) (u1 : String)
    (m : MatchRow)
    (hfind : db.ip_matches.find? (fun r => r.id == mid) = some m)
    (hown : ownsSourceImage db.images m.source_image_id uid = true)
    (hpending : m.status = .pending) :
    confirm_or_decline_match true u1 now db mid .confirm uid =
      (confirmedDB db mid uid now u1 m, .confirmedOk db.nextReportId) := by
  have hmid : m.id = mid := by simpa using List.find?_some hfind
  have hmid' : (reviewedRow m .confirm now).id = mid := hmid
  have hfind2 := find?_update_match db.ip_matches mid m
    (reviewedRow m .confirm now) hfind hmid'
  unfold confirm_or_decline_match create_dmca_report
  rw [hfind]
  simp only [hown, hpending, not_true_eq_false, if_false, ne_eq,
    not_false_eq_true, ite_false, ite_true]
  simp only [reviewedRow] at hfind2
  rw [hfind2]
  simp only [confirmedDB, reviewedRow, buildDmcaReport]

/-- C3: reviewing an already-terminal match is an idempotent no-op and a
second confirm creates no second dossier.  First part: for every owned
match whose status is already terminal (confirmed or declined), a review
call with any action, any dossier outcome and any clock returns success
with the existing status and leaves the database — matches and dossiers —
untouched.  Second part: starting from a pending, owned, dossier-free
match, a confirm returns the new dossier id, exactly one dossier exists
for the match afterwards, and any later review call is the no-op above. -/
theorem review_terminal_idempotent_no_second_dossier
    (db : SentinelDB) (mid uid now : Nat) (u1 : String) (m : MatchRow)
    (hfind : db.ip_matches.find? (fun r => r.id == mid) = some m)
    (hown : ownsSourceImage db.images m.source_image_id uid = true) :
    (∀ (commitOk : Bool) (u : String) (now' : Nat) (action : ReviewAction),
      m.status ≠ .pending →
      confirm_or_decline_match commitOk u now' db mid action uid =
        (db, .alreadyReviewed m.status)) ∧
    (m.status = .pending → dossierCount db.reports mid = 0 →
      (confirm_or_decline_match true u1 now db mid .confirm uid).2 =
        .confirmedOk db.nextReportId ∧
      dossierCount
        (confirm_or_decline_match true u1 now db mid .confirm uid).1.reports mid = 1 ∧
      ∀ (commitOk2 : Bool) (u2 : String) (now2 : Nat) (action : ReviewAction),
        confirm_or_decline_match commitOk2 u2 now2
            (confirm_or_decline_match true u1 now db mid .confirm uid).1 mid action uid =
          ((confirm_or_decline_match true u1 now db mid .confirm uid).1,
            .alreadyReviewed .confirmed)) := by
  constructor
  · intro commitOk u now' action hterm
    unfold confirm_or_decline_match
    rw [hfind]
    simp [hown, hterm]
  · intro hpending hcount
    have hc := confirm_success_eq db mid uid now u1 m hfind hown hpending
    have hmid : m.id = mid := by simpa using List.find?_some hfind
    have hfind2 := find?_update_match db.ip_matches mid m
      (reviewedRow m .confirm now) hfind hmid
    refine ⟨by rw [hc], ?_, ?_⟩
    · rw [hc]
      simp only [dossierCount, confirmedDB, buildDmcaReport, List.filter_append,
        List.length_append]
      simp only [dossierCount] at hcount
      simp [hcount]
    · intro commitOk2 u2 now2 action
      rw [hc]
      have hfind3 : (confirmedDB db mid uid now u1 m).ip_matches.find?
          (fun r => r.id == mid) = some (reviewedRow m .confirm now) := by
        simp only [confirmedDB]
        exact hfind2
      unfold confirm_or_decline_match
      rw [hfind3]
      simp [confirmedDB, reviewedRow, hown]

/-- A match that was already declined before the scenario starts. -/
def sampleDeclinedMatch : MatchRow :=
  { sampleMatch with
    id := 11
    status := .declined
    user_confirmed := some false
    reviewed_at := some 40 }

/-- A database whose only match is already declined. -/
def sampleDeclinedDB : SentinelDB :=
  { sampleDB with ip_matches := [sampleDeclinedMatch], nextMatchId := 12 }

/-- C3 witness: the idempotent-review theorem applied concretely, both to
an already-declined match (re-review is a pure no-op) and to the pending
sample match (one dossier after a confirm). -/
theorem review_terminal_idempotent_no_second_dossier_witness :
    sampleDeclinedDB.ip_matches.find? (fun r => r.id == 11) = some sampleDeclinedMatch ∧
    ownsSourceImage sampleDeclinedDB.images sampleDeclinedMatch.source_image_id 7 = true ∧
    sampleDeclinedMatch.status ≠ .pending ∧
    confirm_or_decline_match true "uuid-9" 80 sampleDeclinedDB 11 .confirm 7 =
      (sampleDeclinedDB, .alreadyReviewed .declined) ∧
    sampleMatch.status = .pending ∧
    dossierCount sampleDB.reports 10 = 0 ∧
    dossierCount
      (confirm_or_decline_match true "uuid-1" 50 sampleDB 10 .confirm 7).1.reports 10 = 1 :=
  ⟨rfl, rfl, by decide,
    (review_terminal_idempotent_no_second_dossier sampleDeclinedDB 11 7 80 "uuid-9"
      sampleDeclinedMatch rfl rfl).1 true "uuid-9" 80 .confirm (by decide),
    rfl, rfl,
    ((review_terminal_idempotent_no_second_dossier sampleDB 10 7 50 "uuid-1"
      sampleMatch rfl rfl).2 rfl rfl).2.1⟩

/-- Shape of a decline on a pending, owned match. -/
theorem decline_success_eq (commitOk : Bool) (freshUuid : String) (now : Nat)
    (db : SentinelDB) (mid uid : Nat) (m : MatchRow)
    (hfind : db.ip_matches.find? (fun r => r.id == mid) = some m)
    (hown : ownsSourceImage db.images m.source_image_id uid = true)
    (hpending : m.status = .pending) :
    confirm_or_decline_match commitOk freshUuid now db mid .decline uid =
      ({ db with ip_matches :=
          db.ip_matches.map (fun (r : MatchRow) =>
            if r.id == mid then reviewedRow m .decline now else r) },
       .declinedOk) := by
  unfold confirm_or_decline_match
  rw [hfind]
  simp [hown, hpending, reviewedRow]

/-- C6: declining a pending match only rewrites that match's row (status
declined, review timestamp, legacy flag); it creates no dossier and the
reports table is returned unchanged, whatever the similarity score. -/
theorem decline_is_dossier_free
    (commitOk : Bool) (freshUuid : String) (now : Nat) (db : SentinelDB)
    (mid uid : Nat) (m : MatchRow)
    (hfind : db.ip_matches.find? (fun r => r.id == mid) = some m)
    (hown : ownsSourceImage db.images m.source_image_id uid = true)
    (hpending : m.status = .pending) :
    confirm_or_decline_match commitOk freshUuid now db mid .decline uid =
      ({ db with ip_matches :=
          db.ip_matches.map (fun (r : MatchRow) =>
            if r.id == mid then reviewedRow m .decline now else r) },
       .declinedOk) ∧
    (confirm_or_decline_match commitOk freshUuid now db mid .decline uid).1.reports =
      db.reports := by
  have h1 := decline_success_eq commitOk freshUuid now db mid uid m hfind hown hpending
  exact ⟨h1, by rw [h1]⟩

/-- C6 witness: declining the sample pending match leaves the dossier
table unchanged. -/
theorem decline_is_dossier_free_witness :
    sampleDB.ip_matches.find? (fun r => r.id == 10) = some sampleMatch ∧
    ownsSourceImage sampleDB.images sampleMatch.source_image_id 7 = true ∧
    sampleMatch.status = .pending ∧
    (confirm_or_decline_match true "uuid-2" 60 sampleDB 10 .decline 7).1.reports =
      sampleDB.reports :=
  ⟨rfl, rfl, rfl,
    (decline_is_dossier_free true "uuid-2" 60 sampleDB 10 7 sampleMatch rfl rfl rfl).2⟩

/-- Did the review call actually transition the match state? -/
def isTransition : ReviewResult → Bool
  | .confirmedOk _ => true
  | .declinedOk => true
  | .httpError _ _ => false
  | .alreadyReviewed _ => false

/-- C10: every successful review transition writes both representations —
afterwards the reviewed row's legacy user_confirmed flag is some true
exactly when its status is confirmed, and some false exactly when its
status is declined. -/
theorem review_keeps_legacy_flag_consistent
    (commitOk : Bool) (freshUuid : String) (now : Nat) (db : SentinelDB)
    (mid uid : Nat) (action : ReviewAction)
    (hsucc : isTransition
      (confirm_or_decline_match commitOk freshUuid now db mid action uid).2 = true) :
    ∃ m'',
      (confirm_or_decline_match commitOk freshUuid now db mid action uid).1.ip_matches.find?
        (fun r => r.id == mid) = some m'' ∧
      (m''.user_confirmed = some true ↔ m''.status = .confirmed) ∧
      (m''.user_confirmed = some false ↔ m''.status = .declined) := by
  cases hfind : db.ip_matches.find? (fun r => r.id == mid) with
  | none =>
    exfalso
    unfold confirm_or_decline_match at hsucc
    rw [hfind] at hsucc
    simp [isTransition] at hsucc
  | some m =>
    have hmid : m.id = mid := by simpa using List.find?_some hfind
    by_cases hown : ownsSourceImage db.images m.source_image_id uid = true
    · by_cases hpend : m.status = .pending
      · cases action with
        | decline =>
          rw [decline_success_eq commitOk freshUuid now db mid uid m hfind hown hpend]
          refine ⟨reviewedRow m .decline now, ?_, ?_, ?_⟩
          · exact find?_update_match db.ip_matches mid m (reviewedRow m .decline now)
              hfind hmid
          · simp [reviewedRow]
          · simp [reviewedRow]
        | confirm =>
          cases commitOk with
          | false =>
            exfalso
            have hfind2 := find?_update_match db.ip_matches mid m
              (reviewedRow m .confirm now) hfind hmid
            unfold confirm_or_decline_match create_dmca_report at hsucc
            rw [hfind] at hsucc
            simp only [hown, hpend, not_true_eq_false, if_false, ne_eq,
              not_false_eq_true, ite_false, ite_true] at hsucc
            simp only [reviewedRow] at hfind2
            rw [hfind2] at hsucc
            simp [isTransition] at hsucc
          | true =>
            rw [confirm_success_eq db mid uid now freshUuid m hfind hown hpend]
            refine ⟨reviewedRow m .confirm now, ?_, ?_, ?_⟩
            · have hfind2 := find?_update_match db.ip_matches mid m
                (reviewedRow m .confirm now) hfind hmid
              simp only [confirmedDB]
              exact hfind2
            · simp [reviewedRow]
            · simp [reviewedRow]
      · exfalso
        unfold confirm_or_decline_match at hsucc
        rw [hfind] at hsucc
        simp [hown, hpend, isTransition] at hsucc
    · exfalso
      unfold confirm_or_decline_match at hsucc
      rw [hfind] at hsucc
      simp [hown, isTransition] at hsucc

/-- C10 witness: a concrete successful decline keeps the legacy flag in
sync with the three-state status. -/
theorem review_keeps_legacy_flag_consistent_witness :
    isTransition
      (confirm_or_decline_match true "uuid-3" 70 sampleDB 10 .decline 7).2 = true ∧
    ∃ m'',
      (confirm_or_decline_match true "uuid-3" 70 sampleDB 10 .decline 7).1.ip_matches.find?
        (fun r => r.id == 10) = some m'' ∧
      (m''.user_confirmed = some true ↔ m''.status = .confirmed) ∧
      (m''.user_confirmed = some false ↔ m''.status = .declined) :=
  ⟨rfl, review_keeps_legacy_flag_consistent true "uuid-3" 70 sampleDB 10 7 .decline rfl⟩

/-- C9: save_image is idempotent in the image URL — with a truthy caller
user id, when an Images row with the same image_url already exists the
call returns that (first) existing row, whatever metadata is passed and
whoever owns the existing row; no new row is inserted and the database is
returned unchanged. -/
theorem save_image_idempotent_by_url (outcome : DbOutcome) (freshTid : String)
    (db : SentinelDB) (url : String) (metadata : ImgMetadata)
    (user_id : Option Nat) (r : ImageRow)
    (huser : natTruthy user_id = true)
    (hfind : db.images.find? (fun x => x.image_url == url) = some r) :
    save_image outcome freshTid db url metadata user_id = .ok (db, .saved r) := by
  unfold save_image
  rw [hfind]
  simp [huser]

/-- An image row owned by user 3 with a known URL. -/
def c9Image : ImageRow :=
  { id := 1, user_id := 3, image_url := "https://cdn.example/shared.jpg" }

/-- A database already holding c9Image. -/
def c9DB : SentinelDB := { images := [c9Image], nextImageId := 2 }

/-- C9 witness: a second save of the same URL by a different user with
different metadata returns the stored row and leaves the database as-is. -/
theorem save_image_idempotent_by_url_witness :
    natTruthy (some 7) = true ∧
    c9DB.images.find? (fun x => x.image_url == "https://cdn.example/shared.jpg") =
      some c9Image ∧
    save_image .commit "tid-1" c9DB "https://cdn.example/shared.jpg"
      { page_title := some "different metadata" } (some 7) =
      .ok (c9DB, .saved c9Image) :=
  ⟨rfl, rfl, save_image_idempotent_by_url .commit "tid-1" c9DB
    "https://cdn.example/shared.jpg" { page_title := some "different metadata" }
    (some 7) c9Image rfl rfl⟩

/-- A scraped candidate whose similarity 0.7499 is strictly below 0.75. -/
def c4Payload : Payload :=
  { page_url := some "https://shop.example/listing",
    url := some "https://shop.example/photo.jpg",
    title := some "Listing", caption := some "Shop",
    similarity := some (7499/10000), text_similarity := some 0 }

/-- One full pipeline run over the 0.7499-similarity candidate. -/
def c4Run : SentinelDB × PipelineResult :=
  run_pipeline true "https://s3.example/src.jpg" .commit "tid" true
    (.fetched [(c4Payload, {})]) 7 0 {}

/-- C4 counterexample: the external pipeline applies no similarity
threshold at all — a candidate with image similarity 0.7499, strictly
below the 0.75 threshold the spec names, is still persisted as a Match. -/
theorem pipeline_persists_below_threshold :
    (c4Run.1.ip_matches.map (fun r => r.similarity_score)) = [7499/10000] ∧
    ¬ ((3 : ℚ)/4 ≤ 7499/10000) ∧
    c4Run.2.success = true := by
  refine ⟨rfl, by norm_num, rfl⟩

/-- C4 (amended): the internal-corpus matcher includes a candidate exactly
when its similarity is at or above its configured 0.2 threshold (at the
boundary it is included, strictly below excluded); the external pipeline
path persists every processed candidate with no similarity condition. -/
theorem threshold_boundary_amended :
    (∀ sim : ℚ, internalQualifies sim = true ↔ INTERNAL_SIMILARITY_THRESHOLD ≤ sim) ∧
    (∀ (now user_id image_id : Nat) (nm : String) (db : SentinelDB)
        (idx : Nat) (c : Payload), strTruthy c.url = true →
      (processOneCandidate now user_id image_id nm true db idx c {}).1.ip_matches.length =
        db.ip_matches.length + 1) := by
  constructor
  · intro sim
    unfold internalQualifies INTERNAL_SIMILARITY_THRESHOLD
    simp only [Bool.and_eq_true, decide_eq_true_eq]
    constructor
    · exact fun h => h.2
    · intro h
      refine ⟨?_, h⟩
      have : (0 : ℚ) < sim := lt_of_lt_of_le (by norm_num) h
      exact ne_of_gt this
  · intro now user_id image_id nm db idx c hurl
    simp [processOneCandidate, save_ip_asset, save_ip_match, hurl]

/-- C4 witness: the threshold theorem evaluated at the boundary and at a
concrete url-bearing candidate. -/
theorem threshold_boundary_amended_witness :
    internalQualifies INTERNAL_SIMILARITY_THRESHOLD = true ∧
    strTruthy c4Payload.url = true ∧
    (processOneCandidate 0 7 1 "1" true {} 0 c4Payload {}).1.ip_matches.length =
      ({} : SentinelDB).ip_matches.length + 1 :=
  ⟨(threshold_boundary_amended.1 INTERNAL_SIMILARITY_THRESHOLD).mpr le_rfl, rfl,
    threshold_boundary_amended.2 0 7 1 "1" {} 0 c4Payload rfl⟩

/-- One pipeline run whose single provider call fails. -/
def c5Run : SentinelDB × PipelineResult :=
  run_pipeline true "https://s3.example/src.jpg" .commit "tid" true
    (.fetchError "SerpAPI error: 500") 7 0 {}

/-- C5 counterexample: a provider failure makes the whole run fail — the
pipeline returns success false with the provider error, not success true
with the surviving providers' results. -/
theorem provider_failure_fails_run :
    c5Run.2.success = false ∧
    c5Run.2.error = some "Failed to fetch similar images: SerpAPI error: 500" :=
  ⟨rfl, rfl⟩

/-- C5 (amended): the pipeline has a single provider and its failure
aborts the run with success false and the error reported, while an
entirely empty candidate result set still yields success true with an
empty match list. -/
theorem provider_failure_and_empty_result_amended
    (public_url freshTid d : String) (user_id now : Nat) (db : SentinelDB)
    (huser : user_id ≠ 0) :
    (run_pipeline true public_url .commit freshTid true (.fetchError d)
      user_id now db).2.success = false ∧
    (run_pipeline true public_url .commit freshTid true (.fetched [])
      user_id now db).2.success = true ∧
    (run_pipeline true public_url .commit freshTid true (.fetched [])
      user_id now db).2.match_list = [] := by
  have ht : natTruthy (some user_id) = true := by simpa [natTruthy] using huser
  unfold run_pipeline save_image
  cases hf : db.images.find? (fun r => r.image_url == public_url) with
  | none => simp [ht, hf]
  | some r => simp [ht, hf]

/-- C5 witness: the amended theorem evaluated on a concrete empty fetch. -/
theorem provider_failure_and_empty_result_amended_witness :
    (7 : Nat) ≠ 0 ∧
    (run_pipeline true "https://s3.example/a.jpg" .commit "t" true (.fetched [])
      7 0 {}).2.success = true :=
  ⟨by decide, (provider_failure_and_empty_result_amended "https://s3.example/a.jpg"
    "t" "unused" 7 0 {} (by decide)).2.1⟩

/-- C7 counterexample: cosine_similarity is an unclamped dot product of
normalised vectors — on opposite one-dimensional unit vectors it returns
-1, outside the claimed [0, 1] range. -/
theorem cosine_similarity_out_of_range :
    cosine_similarity (fun _ : Fin 1 => (1 : ℝ)) (fun _ : Fin 1 => (-1 : ℝ)) = -1 ∧
    ((-1 : ℝ) < 0) := by
  constructor
  · unfold cosine_similarity dotProduct l2norm
    simp [Fin.sum_univ_one]
  · norm_num

/-- C7 (amended): for vectors of nonzero norm the similarity lies in
[-1, 1] — by Cauchy-Schwarz, with no clamping to [0, 1]. -/
theorem cosine_similarity_bounded {n : ℕ} (a b : Fin n → ℝ)
    (ha : l2norm a ≠ 0) (hb : l2norm b ≠ 0) :
    -1 ≤ cosine_similarity a b ∧ cosine_similarity a b ≤ 1 := by
  have hna : 0 < l2norm a := lt_of_le_of_ne (l2norm_nonneg a) (Ne.symm ha)
  have hnb : 0 < l2norm b := lt_of_le_of_ne (l2norm_nonneg b) (Ne.symm hb)
  have hpos : 0 < l2norm a * l2norm b := mul_pos hna hnb
  have hcs := abs_dotProduct_le a b
  rw [cosine_similarity_eq_div]
  constructor
  · rw [le_div_iff₀ hpos]
    linarith [hcs.2]
  · rw [div_le_one hpos]
    exact hcs.1

/-- C7 witness: the bound applied to a concrete unit vector. -/
theorem cosine_similarity_bounded_witness :
    l2norm (fun _ : Fin 1 => (1 : ℝ)) ≠ 0 ∧
    (-1 ≤ cosine_similarity (fun _ : Fin 1 => (1 : ℝ)) (fun _ : Fin 1 => (1 : ℝ)) ∧
      cosine_similarity (fun _ : Fin 1 => (1 : ℝ)) (fun _ : Fin 1 => (1 : ℝ)) ≤ 1) := by
  have h : l2norm (fun _ : Fin 1 => (1 : ℝ)) ≠ 0 := by
    unfold l2norm
    simp [Fin.sum_univ_one]
  exact ⟨h, cosine_similarity_bounded _ _ h h⟩

/-- A dossier with its grouping identifier blanked, for comparisons that
ignore the freshly generated uuid. -/
def dmcaCore (r : DmcaReport) : DmcaReport := { r with infringement_group_id := "" }

/-- C8 (amended): dossier creation is deterministic in every field except
the grouping identifier — two invocations on the same stored payload and
clock that differ only in the generated uuid agree on all other fields,
and with a caller-supplied (nonempty) grouping id they agree completely. -/
theorem create_dmca_report_deterministic_modulo_group
    (commitOk : Bool) (u1 u2 : String) (now : Nat) (db : SentinelDB)
    (user_id match_id : Nat) (scraped : Payload) :
    ((create_dmca_report commitOk u1 now db user_id match_id scraped none).map
      (fun x => dmcaCore x.2) =
     (create_dmca_report commitOk u2 now db user_id match_id scraped none).map
      (fun x => dmcaCore x.2)) ∧
    ∀ g : String, g ≠ "" →
      create_dmca_report commitOk u1 now db user_id match_id scraped (some g) =
      create_dmca_report commitOk u2 now db user_id match_id scraped (some g) := by
  constructor
  · unfold create_dmca_report
    cases hf : db.ip_matches.find? (fun r => r.id == match_id) with
    | none => rfl
    | some m =>
      cases commitOk with
      | false => rfl
      | true => simp [Except.map, dmcaCore, buildDmcaReport]
  · intro g hg
    unfold create_dmca_report
    cases hf : db.ip_matches.find? (fun r => r.id == match_id) with
    | none => rfl
    | some m => simp [hg]

/-- C8 witness: full determinism with the caller-supplied grouping id G1. -/
theorem create_dmca_report_deterministic_modulo_group_witness :
    ("G1" : String) ≠ "" ∧
    create_dmca_report true "uuid-a" 0 sampleDB 7 10 samplePayload (some "G1") =
      create_dmca_report true "uuid-b" 0 sampleDB 7 10 samplePayload (some "G1") :=
  ⟨by decide, (create_dmca_report_deterministic_modulo_group true "uuid-a" "uuid-b"
    0 sampleDB 7 10 samplePayload).2 "G1" (by decide)⟩

/-- The grouping identifier a dossier-creation call produced, if any. -/
def dmcaGroupIdOf (e : Except String (SentinelDB × DmcaReport)) : Option String :=
  match e with
  | .ok x => some x.2.infringement_group_id
  | .error _ => none

/-- C8 counterexample: two dossier creations over the identical stored
payload (and clock) with no caller-supplied grouping id receive the two
distinct freshly generated uuids as grouping identifiers, so the dossiers
are not identical in all fields. -/
theorem dossier_group_id_fresh_per_call :
    dmcaGroupIdOf
      (create_dmca_report true "uuid-a" 0 sampleDB 7 10 samplePayload none) =
        some "uuid-a" ∧
    dmcaGroupIdOf
      (create_dmca_report true "uuid-b" 0 sampleDB 7 10 samplePayload none) =
        some "uuid-b" ∧
    ("uuid-a" : String) ≠ "uuid-b" :=
  ⟨rfl, rfl, by decide⟩

end SentinelAI
